import Mathlib

/-!
Verification of the scalping-strategy backtesting core.

This file is a shallow embedding of the repository's backtesting subsystem:
`transaction_costs.py` (cost model), `pip_calculator.py` (pip values and P&L),
`bid_ask_pricing.py` (fill pricing), `modules/risk_management.py` (risk gate),
`backtester.py` (position lifecycle engine) and
`modules/walk_forward_optimizer.py` (parameter selection).

Modelling conventions:
* Python floats are embedded as exact rationals (`ℚ`); float literals such as
  `0.03333` become the rational `3333/100000`.
* Timestamps are rationals counting seconds (the engine only ever uses
  differences divided by 3600 or 86400, exactly as `total_seconds()` does).
* A Python function that can raise is embedded as `Except String _`; an
  uncaught exception propagates through `do`-bind just as it propagates
  through Python call frames.  Divisions that would raise `ZeroDivisionError`
  are embedded as explicit error branches.
* Python dictionaries returned as records become Lean structures with the
  same field names; dataclasses become structures.
-/

/-- Splitting a character list at every occurrence of a separator, in the
manner of Python's `str.split(sep)`: `n` separators yield `n+1` groups. -/
def splitOnCharAux (sep : Char) : List Char → List (List Char)
  | [] => [[]]
  | x :: xs =>
    let r := splitOnCharAux sep xs
    if x = sep then [] :: r
    else match r with
      | g :: gs => (x :: g) :: gs
      | [] => [[x]]

/-- Python's `s.split(sep)` for a one-character separator. -/
def pySplit (s : String) (sep : Char) : List String :=
  (splitOnCharAux sep s.data).map (fun l => ⟨l⟩)

/-- ASCII lower-casing of one character (Python `str.lower` on the ASCII
strings this code base uses). -/
def lowerChar (ch : Char) : Char :=
  if 'A' ≤ ch ∧ ch ≤ 'Z' then Char.ofNat (ch.toNat + 32) else ch

/-- ASCII lower-casing of a string. -/
def lowerStr (s : String) : String := ⟨s.data.map lowerChar⟩

/-- ASCII upper-casing of one character (Python `str.upper`). -/
def upperChar (ch : Char) : Char :=
  if 'a' ≤ ch ∧ ch ≤ 'z' then Char.ofNat (ch.toNat - 32) else ch

/-- ASCII upper-casing of a string. -/
def upperStr (s : String) : String := ⟨s.data.map upperChar⟩

/-- Whether the first list starts the second (helper for substring search). -/
def startsWithList : List Char → List Char → Bool
  | [], _ => true
  | _ :: _, [] => false
  | a :: as, b :: bs => a = b && startsWithList as bs

/-- Whether the first list occurs contiguously inside the second. -/
def containsList (needle : List Char) : List Char → Bool
  | [] => startsWithList needle []
  | b :: bs => startsWithList needle (b :: bs) || containsList needle bs

/-- Python's `needle in hay` on strings. -/
def strContains (hay needle : String) : Bool := containsList needle.data hay.data

/-- Python truthiness of an `Optional[float]`: `None` and `0` are falsy. -/
def pyTruthy : Option ℚ → Bool
  | none => false
  | some l => decide (l ≠ 0)

/-! Pip calculator (`modules/pip_calculator.py`). -/

/-- Lookup in `PipCalculator.PIP_LOCATIONS`: 0.01 for JPY and HUF quote
currencies, 0.0001 otherwise (`_get_pip_location`). -/
def PipCalculator._get_pip_location (currency : String) : ℚ :=
  if currency = "JPY" then 1/100
  else if currency = "HUF" then 1/100
  else 1/10000

/-- Embedding of `PipCalculator._find_conversion_rate`: the direct pair rate,
else the inverted inverse pair rate (inverting a zero rate is Python's
`ZeroDivisionError`), else nothing. -/
def PipCalculator._find_conversion_rate (from_currency to_currency : String)
    (rates : List (String × ℚ)) : Except String (Option ℚ) :=
  match rates.lookup (from_currency ++ "_" ++ to_currency) with
  | some r => .ok (some r)
  | none =>
    match rates.lookup (to_currency ++ "_" ++ from_currency) with
    | some r => if r = 0 then .error "ZeroDivisionError" else .ok (some (1 / r))
    | none => .ok none

/-- Embedding of `PipCalculator.calculate_pip_value`.  The three cases of the
source: account currency equals the quote currency, equals the base currency
(needs a current rate; dividing by a zero rate is `ZeroDivisionError`), or a
cross pair converted through the supplied rates (falling back to an estimate
when no rates are given or found).  A malformed instrument is `ValueError`. -/
def PipCalculator.calculate_pip_value (instrument account_currency : String)
    (current_rate : Option ℚ) (units : ℤ)
    (conversion_rates : Option (List (String × ℚ))) : Except String ℚ :=
  match pySplit instrument '_' with
  | [base_currency, quote_currency] =>
    let pip_location := PipCalculator._get_pip_location quote_currency
    if account_currency = quote_currency then .ok (pip_location * (units : ℚ))
    else if account_currency = base_currency then
      match current_rate with
      | none => .error "current_rate required when account currency = base currency"
      | some r =>
          if r = 0 then .error "ZeroDivisionError"
          else .ok (pip_location / r * (units : ℚ))
    else
      match conversion_rates with
      | none => .ok (pip_location * (units : ℚ))
      | some rates =>
        match PipCalculator._find_conversion_rate quote_currency account_currency rates with
        | .error e => .error e
        | .ok none => .ok (pip_location * (units : ℚ))
        | .ok (some conversion_rate) => .ok (pip_location * (units : ℚ) * conversion_rate)
  | _ => .error ("Invalid instrument format: " ++ instrument)

/-- Result dictionary of `calculate_pip_value_from_price_diff`. -/
structure PnlResult where
  instrument : String
  direction : String
  units : ℤ
  entry_price : ℚ
  exit_price : ℚ
  price_diff : ℚ
  pips : ℚ
  pip_value : ℚ
  pip_location : ℚ
  pnl : ℚ
  account_currency : String
deriving DecidableEq

/-- Embedding of `PipCalculator.calculate_pip_value_from_price_diff`: signed
price difference (negated for shorts), pips, the pip value at the average of
entry and exit rate, and `pnl = pips * pip_value`. -/
def PipCalculator.calculate_pip_value_from_price_diff (instrument : String)
    (entry_price exit_price : ℚ) (units : ℤ) (account_currency : String)
    (conversion_rates : Option (List (String × ℚ))) : Except String PnlResult :=
  match pySplit instrument '_' with
  | [_base_currency, quote_currency] =>
    let pip_location := PipCalculator._get_pip_location quote_currency
    let price_diff0 := exit_price - entry_price
    let direction := if 0 < units then "long" else "short"
    let price_diff := if units < 0 then -price_diff0 else price_diff0
    let pips := price_diff / pip_location
    let avg_rate := (entry_price + exit_price) / 2
    match PipCalculator.calculate_pip_value instrument account_currency (some avg_rate)
        |units| conversion_rates with
    | .error e => .error e
    | .ok pip_value =>
        .ok { instrument := instrument
              direction := direction
              units := units
              entry_price := entry_price
              exit_price := exit_price
              price_diff := if 0 < units then price_diff else -price_diff
              pips := pips
              pip_value := pip_value
              pip_location := pip_location
              pnl := pips * pip_value
              account_currency := account_currency }
  | _ => .error ("Invalid instrument format: " ++ instrument)

/-! Cost model (`transaction_costs.py`). -/

/-- Market volatility tiers (`MarketCondition` enum). -/
inductive MarketCondition where
  | quiet
  | normal
  | volatile
  | extreme
deriving DecidableEq

/-- Parsing `MarketCondition(market_condition.lower())`; a `ValueError` for an
unknown string is caught and replaced by `NORMAL` in `calculate_trade_costs`,
so the parse is embedded with that fallback built in. -/
def parseMarketCondition (market_condition : String) : MarketCondition :=
  let t := lowerStr market_condition
  if t = "quiet" then .quiet
  else if t = "normal" then .normal
  else if t = "volatile" then .volatile
  else if t = "extreme" then .extreme
  else .normal

/-- Per-instrument cost profile (`InstrumentCostProfile` dataclass). -/
structure InstrumentCostProfile where
  instrument : String
  base_spread : ℚ
  min_spread : ℚ
  max_spread : ℚ
  slippage_avg : ℚ
  slippage_std : ℚ
  swap_long : ℚ
  swap_short : ℚ
  pip_value : ℚ
  pip_location : ℚ
deriving DecidableEq

/-- The `COST_PROFILES["EUR_USD"]` entry. -/
def eurUsdProfile : InstrumentCostProfile :=
  { instrument := "EUR_USD", base_spread := 8/10, min_spread := 5/10,
    max_spread := 2, slippage_avg := 5/10, slippage_std := 3/10,
    swap_long := -5/10, swap_short := 2/10, pip_value := 1,
    pip_location := 1/10000 }

/-- The module-level `COST_PROFILES` table of `transaction_costs.py`. -/
def COST_PROFILES : List (String × InstrumentCostProfile) :=
  [ ("EUR_USD", eurUsdProfile),
    ("GBP_USD",
      { instrument := "GBP_USD", base_spread := 12/10, min_spread := 8/10,
        max_spread := 3, slippage_avg := 7/10, slippage_std := 4/10,
        swap_long := -6/10, swap_short := 25/100, pip_value := 1,
        pip_location := 1/10000 }),
    ("USD_JPY",
      { instrument := "USD_JPY", base_spread := 7/10, min_spread := 4/10,
        max_spread := 2, slippage_avg := 5/10, slippage_std := 3/10,
        swap_long := -3/10, swap_short := -1/10, pip_value := 91/100,
        pip_location := 1/100 }),
    ("AUD_USD",
      { instrument := "AUD_USD", base_spread := 1, min_spread := 6/10,
        max_spread := 25/10, slippage_avg := 6/10, slippage_std := 4/10,
        swap_long := -4/10, swap_short := 15/100, pip_value := 1,
        pip_location := 1/10000 }),
    ("USD_CAD",
      { instrument := "USD_CAD", base_spread := 12/10, min_spread := 7/10,
        max_spread := 3, slippage_avg := 6/10, slippage_std := 4/10,
        swap_long := -45/100, swap_short := 18/100, pip_value := 74/100,
        pip_location := 1/10000 }),
    ("EUR_GBP",
      { instrument := "EUR_GBP", base_spread := 15/10, min_spread := 1,
        max_spread := 35/10, slippage_avg := 8/10, slippage_std := 5/10,
        swap_long := -55/100, swap_short := 22/100, pip_value := 127/100,
        pip_location := 1/10000 }) ]

/-- The `CostCalculator` object: its only state is the profile table, which
defaults to `COST_PROFILES` (the backtester constructs it with the default). -/
structure CostCalculator where
  cost_profiles : List (String × InstrumentCostProfile) := COST_PROFILES

/-- Profile resolution at the top of `calculate_trade_costs`: a missing
instrument falls back to the `EUR_USD` entry after only a log warning; the
subscript `cost_profiles["EUR_USD"]` would itself be a `KeyError` on a table
without that entry. -/
def CostCalculator.getProfile (self : CostCalculator) (instrument : String) :
    Except String InstrumentCostProfile :=
  match self.cost_profiles.lookup instrument with
  | some profile => .ok profile
  | none =>
    match self.cost_profiles.lookup "EUR_USD" with
    | some profile => .ok profile
    | none => .error "KeyError: EUR_USD"

/-- Embedding of `CostCalculator._get_spread`. -/
def CostCalculator._get_spread (profile : InstrumentCostProfile)
    (condition : MarketCondition) : ℚ :=
  match condition with
  | .quiet => profile.min_spread
  | .normal => profile.base_spread
  | .volatile => profile.base_spread * (15/10)
  | .extreme => profile.max_spread

/-- Embedding of `CostCalculator._get_slippage`. -/
def CostCalculator._get_slippage (profile : InstrumentCostProfile)
    (condition : MarketCondition) : ℚ :=
  match condition with
  | .quiet => profile.slippage_avg * (7/10)
  | .normal => profile.slippage_avg
  | .volatile => profile.slippage_avg * 2
  | .extreme => profile.slippage_avg * 3

/-- Embedding of `CostCalculator._get_swap_cost`: zero for `hold_days == 0`,
otherwise the directional per-lot rate scaled by lots and days (the long rate
for positive units, the short rate otherwise). -/
def CostCalculator._get_swap_cost (profile : InstrumentCostProfile)
    (units : ℤ) (hold_days : ℚ) : ℚ :=
  if hold_days = 0 then 0
  else
    let swap_rate := if 0 < units then profile.swap_long else profile.swap_short
    let lots : ℚ := |(units : ℚ)| / 10000
    swap_rate * lots * hold_days

/-- Result dictionary of `calculate_trade_costs`. -/
structure CostResult where
  instrument : String
  units : ℤ
  lots : ℚ
  spread_cost_pips : ℚ
  spread_cost_usd : ℚ
  slippage_cost_pips : ℚ
  slippage_cost_usd : ℚ
  swap_cost_usd : ℚ
  total_cost_pips : ℚ
  total_cost_usd : ℚ
  gross_pnl_usd : ℚ
  net_pnl_usd : ℚ
  cost_ratio : ℚ
  break_even_pips : ℚ
  pip_value : ℚ
  market_condition : String
deriving DecidableEq

/-- Embedding of `CostCalculator.calculate_trade_costs`: double-sided spread
and slippage in pips scaled by pip value and lots, directional swap, and when
an exit price is supplied also gross/net P&L and the cost ratio. -/
def CostCalculator.calculate_trade_costs (self : CostCalculator)
    (instrument : String) (units : ℤ) (entry_price : ℚ) (exit_price : Option ℚ)
    (hold_days : ℚ) (market_condition : String) (include_slippage : Bool) :
    Except String CostResult :=
  match self.getProfile instrument with
  | .error e => .error e
  | .ok profile =>
    let condition := parseMarketCondition market_condition
    let spread_pips := CostCalculator._get_spread profile condition
    let spread_cost_pips := spread_pips * 2
    let slippage_cost_pips :=
      if include_slippage then CostCalculator._get_slippage profile condition * 2 else 0
    let swap_cost_usd := CostCalculator._get_swap_cost profile units hold_days
    let total_cost_pips := spread_cost_pips + slippage_cost_pips
    let lots : ℚ := |(units : ℚ)| / 10000
    let spread_cost_usd := spread_cost_pips * profile.pip_value * lots
    let slippage_cost_usd := slippage_cost_pips * profile.pip_value * lots
    let total_cost_usd := spread_cost_usd + slippage_cost_usd + swap_cost_usd
    let base : CostResult :=
      { instrument := instrument, units := units, lots := lots,
        spread_cost_pips := spread_cost_pips, spread_cost_usd := spread_cost_usd,
        slippage_cost_pips := slippage_cost_pips, slippage_cost_usd := slippage_cost_usd,
        swap_cost_usd := swap_cost_usd, total_cost_pips := total_cost_pips,
        total_cost_usd := total_cost_usd, gross_pnl_usd := 0, net_pnl_usd := 0,
        cost_ratio := 0, break_even_pips := total_cost_pips,
        pip_value := profile.pip_value, market_condition := market_condition }
    match exit_price with
    | none => .ok base
    | some xp =>
      let price_diff0 := xp - entry_price
      let price_diff := if units < 0 then -price_diff0 else price_diff0
      let pips := price_diff / profile.pip_location
      let gross_pnl_usd := pips * profile.pip_value * lots
      let net_pnl_usd := gross_pnl_usd - total_cost_usd
      let cost_ratio := if 0 < gross_pnl_usd then total_cost_usd / gross_pnl_usd else 0
      .ok { base with gross_pnl_usd := gross_pnl_usd, net_pnl_usd := net_pnl_usd,
                      cost_ratio := cost_ratio }

/-! Risk gate (`modules/risk_management.py`). -/

/-- Open-position summary handed to the risk manager (`PositionInfo`). -/
structure PositionInfo where
  instrument : String
  units : ℤ
  unrealized_pnl : ℚ
  margin_used : ℚ
deriving DecidableEq

/-- The `RiskManager` limits, with the constructor's default values. -/
structure RiskManager where
  max_leverage : ℚ := 20
  max_risk_per_trade : ℚ := 1
  max_total_exposure_ratio : ℚ := 3
  min_margin_level : ℚ := 100
  max_correlation_exposure : ℚ := 2
deriving DecidableEq

/-- Result dictionary of `_check_leverage`. -/
structure LeverageCheck where
  passed : Bool
  value : ℚ
  limit : ℚ
  existing_exposure : ℚ
  new_position_value : ℚ
  total_exposure : ℚ
deriving DecidableEq

/-- Result dictionary of `_check_risk_per_trade`. -/
structure RiskPerTradeCheck where
  passed : Bool
  value : ℚ
  limit : ℚ
  max_loss : ℚ
  stop_loss_pips : ℚ
deriving DecidableEq

/-- Result dictionary of `_check_total_exposure`. -/
structure ExposureCheck where
  passed : Bool
  value : ℚ
  limit : ℚ
  existing_exposure : ℚ
  new_position_value : ℚ
  total_exposure : ℚ
deriving DecidableEq

/-- Result dictionary of `_check_margin_requirement`. -/
structure MarginCheck where
  passed : Bool
  margin_level : ℚ
  equity : ℚ
  used_margin : ℚ
  required_margin : ℚ
  free_margin : ℚ
  min_margin_level : ℚ
deriving DecidableEq

/-- Messages of `_check_position_sanity`, as structured data in place of the
formatted strings of the source. -/
inductive SanityMessage where
  | tooSmall (position_value : ℚ)
  | tooLarge (position_value account_balance : ℚ)
  | reasonable
deriving DecidableEq

/-- Result dictionary of `_check_position_sanity`. -/
structure SanityCheck where
  passed : Bool
  message : SanityMessage
deriving DecidableEq

/-- The rejection reason strings of `validate_position`, as structured data
carrying the same computed-value-versus-limit payload the source interpolates
into each f-string. -/
inductive RejectionReason where
  | leverageExceeded (value limit : ℚ)
  | riskPerTradeExceeded (value limit : ℚ)
  | exposureExceeded (value limit : ℚ)
  | insufficientMargin (free_margin required_margin : ℚ)
  | allChecksPassed
deriving DecidableEq

/-- The warning strings `validate_position` accumulates, as structured data. -/
inductive RiskWarning where
  | highLeverage (value limit : ℚ)
  | lowMarginLevel (margin_level : ℚ)
  | positionSizeUnusual (message : SanityMessage)
deriving DecidableEq

/-- The `checks` dictionary of `validate_position`: a key is present exactly
when the corresponding sub-check was attempted. -/
structure ValidationChecks where
  leverage : Option LeverageCheck := none
  risk_per_trade : Option RiskPerTradeCheck := none
  exposure : Option ExposureCheck := none
  margin : Option MarginCheck := none
  sanity : Option SanityCheck := none
deriving DecidableEq

/-- Result dictionary of `validate_position`. -/
structure ValidationResult where
  allowed : Bool
  reason : RejectionReason
  checks : ValidationChecks
  warnings : List RiskWarning
deriving DecidableEq

/-- Embedding of `RiskManager._check_leverage`.  The existing exposure sums
`abs(p.units) * 1.0` (units, not notional value — kept as the source has it);
a non-positive balance makes the leverage the sentinel 999. -/
def RiskManager._check_leverage (self : RiskManager) (account_balance : ℚ)
    (new_position_value : ℚ) (existing_positions : List PositionInfo) : LeverageCheck :=
  let existing_exposure := (existing_positions.map (fun p => |(p.units : ℚ)| * 1)).sum
  let total_exposure := existing_exposure + new_position_value
  let leverage := if 0 < account_balance then total_exposure / account_balance else 999
  { passed := decide (leverage ≤ self.max_leverage), value := leverage,
    limit := self.max_leverage, existing_exposure := existing_exposure,
    new_position_value := new_position_value, total_exposure := total_exposure }

/-- Embedding of `RiskManager._check_risk_per_trade`: the potential loss is
`stop_loss_pips * pip_value * lots`, as a percentage of the balance. -/
def RiskManager._check_risk_per_trade (self : RiskManager) (account_balance : ℚ)
    (position_units : ℤ) (stop_loss_pips pip_value : ℚ) : RiskPerTradeCheck :=
  let lots : ℚ := |(position_units : ℚ)| / 10000
  let max_loss := stop_loss_pips * pip_value * lots
  let risk_percent := if 0 < account_balance then max_loss / account_balance * 100 else 999
  { passed := decide (risk_percent ≤ self.max_risk_per_trade), value := risk_percent,
    limit := self.max_risk_per_trade, max_loss := max_loss,
    stop_loss_pips := stop_loss_pips }

/-- Embedding of `RiskManager._check_total_exposure`. -/
def RiskManager._check_total_exposure (self : RiskManager) (account_balance : ℚ)
    (new_position_value : ℚ) (existing_positions : List PositionInfo) : ExposureCheck :=
  let existing_exposure := (existing_positions.map (fun p => |(p.units : ℚ)| * 1)).sum
  let total_exposure := existing_exposure + new_position_value
  let exposure_ratio := if 0 < account_balance then total_exposure / account_balance else 999
  { passed := decide (exposure_ratio ≤ self.max_total_exposure_ratio),
    value := exposure_ratio, limit := self.max_total_exposure_ratio,
    existing_exposure := existing_exposure, new_position_value := new_position_value,
    total_exposure := total_exposure }

/-- Embedding of `RiskManager._check_margin_requirement`.  Note that `passed`
conjoins two conditions in the source: `free_margin >= new_margin_required`
and `margin_level >= min_margin_level`. -/
def RiskManager._check_margin_requirement (self : RiskManager) (account_balance : ℚ)
    (new_position_value : ℚ) (existing_positions : List PositionInfo)
    (margin_rate : ℚ) : MarginCheck :=
  let used_margin := (existing_positions.map PositionInfo.margin_used).sum
  let new_margin_required := new_position_value * margin_rate
  let total_margin_required := used_margin + new_margin_required
  let unrealized_pnl := (existing_positions.map PositionInfo.unrealized_pnl).sum
  let equity := account_balance + unrealized_pnl
  let free_margin := equity - used_margin
  let margin_level :=
    if 0 < total_margin_required then equity / total_margin_required * 100 else 999
  { passed := decide (new_margin_required ≤ free_margin) &&
      decide (self.min_margin_level ≤ margin_level),
    margin_level := margin_level, equity := equity, used_margin := used_margin,
    required_margin := new_margin_required, free_margin := free_margin,
    min_margin_level := self.min_margin_level }

/-- Embedding of `RiskManager._check_position_sanity`: rejects positions worth
less than 100 or more than 100× the balance. -/
def RiskManager._check_position_sanity (position_units : ℤ)
    (account_balance current_price : ℚ) : SanityCheck :=
  let position_value := |(position_units : ℚ)| * current_price
  if position_value < 100 then
    { passed := false, message := .tooSmall position_value }
  else if account_balance * 100 < position_value then
    { passed := false, message := .tooLarge position_value account_balance }
  else
    { passed := true, message := .reasonable }

/-- Embedding of `RiskManager.validate_position`: leverage, per-trade risk,
exposure and margin checks run in that order, short-circuiting on the first
failure with the failing check's reason; every attempted check is recorded in
`checks`, the sanity check only adds a warning. -/
def RiskManager.validate_position (self : RiskManager) (account_balance : ℚ)
    (new_position_units : ℤ) (_instrument : String) (current_price : ℚ)
    (stop_loss_pips pip_value : ℚ) (existing_positions : List PositionInfo)
    (margin_rate : ℚ) : ValidationResult :=
  let position_value := |(new_position_units : ℚ)| * current_price
  let leverage_check := self._check_leverage account_balance position_value existing_positions
  if ¬ leverage_check.passed then
    { allowed := false,
      reason := .leverageExceeded leverage_check.value self.max_leverage,
      checks := { leverage := some leverage_check },
      warnings := [] }
  else
    let warnings0 : List RiskWarning :=
      if self.max_leverage * (8/10) < leverage_check.value then
        [.highLeverage leverage_check.value self.max_leverage]
      else []
    let risk_check := self._check_risk_per_trade account_balance new_position_units
      stop_loss_pips pip_value
    if ¬ risk_check.passed then
      { allowed := false,
        reason := .riskPerTradeExceeded risk_check.value self.max_risk_per_trade,
        checks := { leverage := some leverage_check, risk_per_trade := some risk_check },
        warnings := warnings0 }
    else
      let exposure_check := self._check_total_exposure account_balance position_value
        existing_positions
      if ¬ exposure_check.passed then
        { allowed := false,
          reason := .exposureExceeded exposure_check.value self.max_total_exposure_ratio,
          checks := { leverage := some leverage_check, risk_per_trade := some risk_check,
                      exposure := some exposure_check },
          warnings := warnings0 }
      else
        let margin_check := self._check_margin_requirement account_balance position_value
          existing_positions margin_rate
        if ¬ margin_check.passed then
          { allowed := false,
            reason := .insufficientMargin margin_check.free_margin margin_check.required_margin,
            checks := { leverage := some leverage_check, risk_per_trade := some risk_check,
                        exposure := some exposure_check, margin := some margin_check },
            warnings := warnings0 }
        else
          let warnings1 :=
            if margin_check.margin_level < self.min_margin_level * (15/10) then
              warnings0 ++ [.lowMarginLevel margin_check.margin_level]
            else warnings0
          let sanity_check := RiskManager._check_position_sanity new_position_units
            account_balance current_price
          let warnings2 :=
            if ¬ sanity_check.passed then
              warnings1 ++ [.positionSizeUnusual sanity_check.message]
            else warnings1
          { allowed := true,
            reason := .allChecksPassed,
            checks := { leverage := some leverage_check, risk_per_trade := some risk_check,
                        exposure := some exposure_check, margin := some margin_check,
                        sanity := some sanity_check },
            warnings := warnings2 }

/-! Fill pricer (`modules/bid_ask_pricing.py`). -/

/-- One side of an OANDA candle (`candle.bid`, `candle.ask` or `candle.mid`):
open, high, low, close. -/
structure PriceSide where
  o : ℚ
  h : ℚ
  l : ℚ
  c : ℚ
deriving DecidableEq

/-- The duck-typed candle object `BidAskPricer` receives: each price side is
present exactly when Python's `hasattr` finds it. -/
structure OandaCandle where
  bid : Option PriceSide
  ask : Option PriceSide
  mid : Option PriceSide
deriving DecidableEq

/-- Python's `getattr(side, price_field)` for the one-letter field names;
any other field is an `AttributeError`, embedded as `none`. -/
def PriceSide.getattr (self : PriceSide) (price_field : Char) : Option ℚ :=
  if price_field = 'o' then some self.o
  else if price_field = 'h' then some self.h
  else if price_field = 'l' then some self.l
  else if price_field = 'c' then some self.c
  else none

/-- Embedding of `BidAskPricer._get_midpoint_price`: the mid side when
present, else the bid/ask average, else `ValueError`; an empty `price_type`
would be an `IndexError`, an unknown field an uncaught `AttributeError`. -/
def BidAskPricer._get_midpoint_price (candle : OandaCandle) (price_type : String) :
    Except String ℚ :=
  match price_type.data with
  | [] => .error "IndexError: string index out of range"
  | ch :: _ =>
    let price_field := lowerChar ch
    match candle.mid with
    | some m =>
      match m.getattr price_field with
      | some v => .ok v
      | none => .error "AttributeError"
    | none =>
      match candle.bid, candle.ask with
      | some b, some a =>
        match b.getattr price_field, a.getattr price_field with
        | some bid_price, some ask_price => .ok ((bid_price + ask_price) / 2)
        | _, _ => .error "AttributeError"
      | _, _ => .error "Cannot extract price from candle"

/-- Embedding of `BidAskPricer.get_execution_price`: ask side for BUY, bid
side for SELL; a candle without both bid and ask falls back to
`_get_midpoint_price`, as does an `AttributeError` on the price field; any
other direction is a `ValueError`. -/
def BidAskPricer.get_execution_price (candle : OandaCandle) (direction : String)
    (price_type : String) : Except String ℚ :=
  let d := upperStr direction
  match candle.bid, candle.ask with
  | some bid, some ask =>
    match price_type.data with
    | [] => .error "IndexError: string index out of range"
    | ch :: _ =>
      let price_field := lowerChar ch
      if d = "BUY" then
        match ask.getattr price_field with
        | some v => .ok v
        | none => BidAskPricer._get_midpoint_price candle price_type
      else if d = "SELL" then
        match bid.getattr price_field with
        | some v => .ok v
        | none => BidAskPricer._get_midpoint_price candle price_type
      else .error ("Invalid direction: " ++ d)
  | _, _ => BidAskPricer._get_midpoint_price candle price_type

/-! Position lifecycle engine (`backtester.py`). -/

/-- One row of the backtester's data frame: a bid/ask OHLC candle. -/
structure Candle where
  time : ℚ
  instrument : String
  bid_open : ℚ
  bid_high : ℚ
  bid_low : ℚ
  bid_close : ℚ
  ask_open : ℚ
  ask_high : ℚ
  ask_low : ℚ
  ask_close : ℚ
  volume : ℤ
deriving DecidableEq

/-- A strategy signal dictionary: `action`, `units`, optional stop/target and
an opaque metadata bag. -/
structure Signal where
  action : String
  units : ℤ
  stop_loss : Option ℚ := none
  take_profit : Option ℚ := none
  metadata : List (String × String) := []
deriving DecidableEq

/-- The `OpenPosition` dataclass of `backtester.py`. -/
structure OpenPosition where
  entry_time : ℚ
  instrument : String
  direction : String
  units : ℤ
  entry_price : ℚ
  stop_loss : ℚ
  take_profit : ℚ
  metadata : List (String × String) := []
deriving DecidableEq

/-- The `Trade` dataclass of `backtester.py` (a completed trade). -/
structure Trade where
  entry_time : ℚ
  exit_time : ℚ
  instrument : String
  direction : String
  units : ℤ
  entry_price : ℚ
  exit_price : ℚ
  stop_loss : ℚ
  take_profit : ℚ
  gross_pnl : ℚ
  costs : ℚ
  net_pnl : ℚ
  pips : ℚ
  hold_days : ℚ
  exit_reason : String
  metadata : List (String × String) := []
deriving DecidableEq

/-- The constructor parameters of the `Backtester` class, with its default
values.  The cost calculator and pip calculator it builds carry no state
beyond their defaults, so they do not appear here. -/
structure Backtester where
  initial_balance : ℚ := 10000
  max_positions : ℕ := 3
  risk_per_trade : ℚ := 1
  use_realistic_costs : Bool := true
  enable_risk_management : Bool := true
deriving DecidableEq

/-- The `RiskManager` the backtester constructs in `__init__`. -/
def Backtester.risk_manager (self : Backtester) : RiskManager :=
  { max_leverage := 20, max_risk_per_trade := self.risk_per_trade,
    max_total_exposure_ratio := 3, min_margin_level := 100,
    max_correlation_exposure := 2 }

/-- The mutable state a run threads through the bars: realized balance, the
trade log, the open-position list and the equity curve. -/
structure BtState where
  current_balance : ℚ
  trades : List Trade
  open_positions : List OpenPosition
  equity_curve : List (ℚ × ℚ)
deriving DecidableEq

/-- Embedding of `Backtester._close_position`: exit at the closing side's
close price, gross P&L from the pip calculator, costs from the cost model
when realistic costs are enabled, `net = gross - costs`; the balance is
advanced by the net P&L, the trade appended, and the position removed — all
in one step. -/
def Backtester._close_position (self : Backtester) (st : BtState)
    (position : OpenPosition) (candle : Candle) (reason : String) :
    Except String BtState :=
  let exit_price := if position.direction = "BUY" then candle.bid_close else candle.ask_close
  let hold_days := (candle.time - position.entry_time) / 86400
  match PipCalculator.calculate_pip_value_from_price_diff position.instrument
      position.entry_price exit_price position.units "USD" none with
  | .error e => .error e
  | .ok pnl_result =>
    let costsE : Except String ℚ :=
      if self.use_realistic_costs then
        match ({} : CostCalculator).calculate_trade_costs position.instrument
            position.units position.entry_price (some exit_price) hold_days
            "normal" true with
        | .error e => .error e
        | .ok cost_result => .ok cost_result.total_cost_usd
      else .ok 0
    match costsE with
    | .error e => .error e
    | .ok costs =>
      let gross_pnl := pnl_result.pnl
      let pips := pnl_result.pips
      let net_pnl := gross_pnl - costs
      let trade : Trade :=
        { entry_time := position.entry_time, exit_time := candle.time,
          instrument := position.instrument, direction := position.direction,
          units := position.units, entry_price := position.entry_price,
          exit_price := exit_price, stop_loss := position.stop_loss,
          take_profit := position.take_profit, gross_pnl := gross_pnl,
          costs := costs, net_pnl := net_pnl, pips := pips,
          hold_days := hold_days, exit_reason := reason,
          metadata := position.metadata }
      .ok { st with current_balance := st.current_balance + net_pnl,
                    trades := st.trades ++ [trade],
                    open_positions := st.open_positions.erase position }

/-- The per-position branch logic of `Backtester._update_open_positions`: a
BUY closes as "SL" when `bid_low <= stop_loss`, else as "TP" when
`bid_high >= take_profit`; a SELL closes as "SL" when
`ask_high >= stop_loss`, else as "TP" when `ask_low <= take_profit`;
otherwise the hold time is checked against the (truthy) time limit and the
position closes as "TIME". -/
def Backtester.update_position_step (self : Backtester) (current_candle : Candle)
    (time_limit_hours : Option ℚ) (s : BtState) (pos : OpenPosition) :
    Except String BtState :=
  if pos.direction = "BUY" then
    if current_candle.bid_low ≤ pos.stop_loss then
      self._close_position s pos current_candle "SL"
    else if pos.take_profit ≤ current_candle.bid_high then
      self._close_position s pos current_candle "TP"
    else
      let hold_time := (current_candle.time - pos.entry_time) / 3600
      if pyTruthy time_limit_hours ∧ time_limit_hours.getD 0 ≤ hold_time then
        self._close_position s pos current_candle "TIME"
      else .ok s
  else
    if pos.stop_loss ≤ current_candle.ask_high then
      self._close_position s pos current_candle "SL"
    else if current_candle.ask_low ≤ pos.take_profit then
      self._close_position s pos current_candle "TP"
    else
      let hold_time := (current_candle.time - pos.entry_time) / 3600
      if pyTruthy time_limit_hours ∧ time_limit_hours.getD 0 ≤ hold_time then
        self._close_position s pos current_candle "TIME"
      else .ok s

/-- Embedding of the body of `Backtester._update_open_positions`: fold the
per-position step over a snapshot of the open-position list. -/
def Backtester._update_open_positions (self : Backtester) (st : BtState)
    (current_candle : Candle) (time_limit_hours : Option ℚ) : Except String BtState :=
  st.open_positions.foldlM (self.update_position_step current_candle time_limit_hours) st

/-- Embedding of `Backtester._open_position`: entry at ask close for BUY and
bid close for SELL, default stop/target when the signal supplies none; with
risk management enabled the proposal is validated (the pip value coming from
the pip calculator) and a rejection leaves the state unchanged; otherwise the
new position is appended. -/
def Backtester._open_position (self : Backtester) (st : BtState) (signal : Signal)
    (candle : Candle) : Except String BtState :=
  let direction := signal.action
  let units := signal.units
  let instrument := candle.instrument
  let entry_price := if direction = "BUY" then candle.ask_close else candle.bid_close
  let stop_loss := signal.stop_loss.getD
    (if direction = "BUY" then entry_price * (99/100) else entry_price * (101/100))
  let take_profit := signal.take_profit.getD
    (if direction = "BUY" then entry_price * (1015/1000) else entry_price * (985/1000))
  let position : OpenPosition :=
    { entry_time := candle.time, instrument := instrument, direction := direction,
      units := units, entry_price := entry_price, stop_loss := stop_loss,
      take_profit := take_profit, metadata := signal.metadata }
  if self.enable_risk_management then
    match PipCalculator.calculate_pip_value instrument "USD" (some entry_price)
        |units| none with
    | .error e => .error e
    | .ok pip_value =>
      let pip_location : ℚ := if strContains instrument "_JPY" then 1/100 else 1/10000
      let stop_pips := |entry_price - stop_loss| / pip_location
      let existing := st.open_positions.map (fun p =>
        ({ instrument := p.instrument, units := p.units, unrealized_pnl := 0,
           margin_used := |(p.units : ℚ)| * entry_price * (3333/100000) } : PositionInfo))
      let validation := self.risk_manager.validate_position st.current_balance units
        instrument entry_price stop_pips pip_value existing (3333/100000)
      if validation.allowed then
        .ok { st with open_positions := st.open_positions ++ [position] }
      else
        .ok st
  else
    .ok { st with open_positions := st.open_positions ++ [position] }

/-- Embedding of `Backtester._calculate_equity`: the realized balance plus
each open position's unrealized P&L at the closing side's close price. -/
def Backtester._calculate_equity (st : BtState) (current_candle : Candle) :
    Except String ℚ :=
  st.open_positions.foldlM (fun equity pos =>
    let current_price :=
      if pos.direction = "BUY" then current_candle.bid_close else current_candle.ask_close
    match PipCalculator.calculate_pip_value_from_price_diff pos.instrument
        pos.entry_price current_price pos.units "USD" none with
    | .error e => .error e
    | .ok pnl_result => .ok (equity + pnl_result.pnl)) st.current_balance

/-- The strategy signal interface: called with the recent bars and the
current bar, it may return a signal, nothing, or raise. -/
abbrev StrategyFunc := List Candle → Candle → Except String (Option Signal)

/-- One iteration of the main loop of `Backtester.run` at the bar with index
`prev.length`: update open positions, then — only when the open-position
count is strictly below `max_positions` — query the strategy over the
bounded lookback window and route a BUY/SELL signal through
`_open_position`, then append the equity point. -/
def Backtester.run_bar (self : Backtester) (strategy_func : StrategyFunc)
    (time_limit_hours : Option ℚ) (prev : List Candle) (current_candle : Candle)
    (st : BtState) : Except String BtState :=
  match self._update_open_positions st current_candle time_limit_hours with
  | .error e => .error e
  | .ok st1 =>
    let signal_step : Except String BtState :=
      if st1.open_positions.length < self.max_positions then
        let i := prev.length
        let lookback := min i 100
        let recent_data := (prev ++ [current_candle]).drop (i - lookback)
        match strategy_func recent_data current_candle with
        | .error e => .error e
        | .ok (some signal) =>
          if signal.action = "BUY" ∨ signal.action = "SELL" then
            self._open_position st1 signal current_candle
          else .ok st1
        | .ok none => .ok st1
      else .ok st1
    match signal_step with
    | .error e => .error e
    | .ok st2 =>
      match Backtester._calculate_equity st2 current_candle with
      | .error e => .error e
      | .ok current_equity =>
        .ok { st2 with
              equity_curve := st2.equity_curve ++ [(current_candle.time, current_equity)] }

/-- The main loop of `Backtester.run` over the remaining bars, `prev` being
the bars already processed (so the current index is `prev.length`). -/
def Backtester.run_bars (self : Backtester) (strategy_func : StrategyFunc)
    (time_limit_hours : Option ℚ) : List Candle → List Candle → BtState →
    Except String BtState
  | _, [], st => .ok st
  | prev, c :: rest, st =>
    match Backtester.run_bar self strategy_func time_limit_hours prev c st with
    | .error e => .error e
    | .ok st' => Backtester.run_bars self strategy_func time_limit_hours (prev ++ [c]) rest st'

/-- Embedding of `Backtester.run`: reset the state (seeding the equity curve
with the initial balance at the first bar's time), process every bar in
order, then close any remaining positions at the final candle with reason
"END".  `max_hold_bars` is accepted and never used, as in the source.  An
empty data frame is the source's `ValueError`. -/
def Backtester.run (self : Backtester) (strategy_func : StrategyFunc)
    (data : List Candle) (_max_hold_bars : ℕ) (time_limit_hours : Option ℚ) :
    Except String BtState :=
  match data with
  | [] => .error "No data loaded. Call load_csv_data() or load_oanda_data() first."
  | d0 :: _ =>
    let st0 : BtState :=
      { current_balance := self.initial_balance, trades := [],
        open_positions := [], equity_curve := [(d0.time, self.initial_balance)] }
    match Backtester.run_bars self strategy_func time_limit_hours [] data st0 with
    | .error e => .error e
    | .ok st =>
      let final_candle := data.getLastD d0
      st.open_positions.foldlM
        (fun s pos => self._close_position s pos final_candle "END") st

/-! Walk-forward optimizer (`modules/walk_forward_optimizer.py`). -/

/-- The `ParameterSet` dataclass of the walk-forward optimizer. -/
structure ParameterSet where
  rsi_oversold : ℤ
  rsi_overbought : ℤ
  reward_risk_ratio : ℚ
  atr_multiplier : ℚ
  ma_short_period : ℤ
  ma_long_period : ℤ
  min_volume : ℤ
  min_trend_strength : ℚ
deriving DecidableEq

/-- The `BacktestResult` dataclass of the walk-forward optimizer. -/
structure BacktestResult where
  params : ParameterSet
  total_return : ℚ
  win_rate : ℚ
  sharpe_ratio : ℚ
  profit_factor : ℚ
  max_drawdown : ℚ
  total_trades : ℕ
deriving DecidableEq

/-- Embedding of `BacktestResult.fitness_score`: a fixed weighted combination
of a clamped return score, a clamped Sharpe score, the win rate and a clamped
profit-factor score (the literal `33.33` is the rational `3333/100`). -/
def BacktestResult.fitness_score (self : BacktestResult) : ℚ :=
  let return_score := min (max self.total_return (-50)) 50 + 50
  let sharpe_score := min (max self.sharpe_ratio (-2)) 3 * 20
  let win_rate_score := self.win_rate * 100
  let pf_score := min self.profit_factor 3 * (3333/100)
  return_score * (3/10) + sharpe_score * (3/10) +
    win_rate_score * (2/10) + pf_score * (2/10)

/-- One iteration of the parameter-selection loop of
`WalkForwardOptimizer.optimize_window`: a candidate replaces the running best
exactly when its fitness is strictly greater (`fitness > best_fitness`). -/
def WalkForwardOptimizer.select_step (best : Option BacktestResult)
    (result : BacktestResult) : Option BacktestResult :=
  match best with
  | none => some result
  | some b =>
    if b.fitness_score < result.fitness_score then some result else some b

/-- The fold of `select_step` over the grid-ordered training results, starting
from `best_fitness = -inf` (no candidate yet): every candidate is compared,
and nothing about `total_trades` ever enters the comparison. -/
def WalkForwardOptimizer.select_best_result (results : List BacktestResult) :
    Option BacktestResult :=
  results.foldl WalkForwardOptimizer.select_step none

/-! Concrete fixtures used by the scenario-level theorems below. -/

/-- Sum of the net P&L column of a trade log. -/
def totalNetPnl (trades : List Trade) : ℚ := (trades.map Trade.net_pnl).sum

/-- Scenario fixture: a LONG EUR_USD position entered at 1.0850 with a 15-pip
stop (1.0835) and take-profit 1.0880. -/
def specPosition : OpenPosition :=
  { entry_time := 0, instrument := "EUR_USD", direction := "BUY", units := 10000,
    entry_price := 217/200, stop_loss := 2167/2000, take_profit := 136/125,
    metadata := [] }

/-- Scenario fixture: engine state holding only `specPosition`. -/
def specState : BtState :=
  { current_balance := 10000, trades := [], open_positions := [specPosition],
    equity_curve := [] }

/-- Scenario fixture: a bar whose bid low hits the stop at exactly 1.0835 and
whose bid high (1.0900) also reaches the take-profit — both stop and target
are touched within the same bar. -/
def specBar : Candle :=
  { time := 0, instrument := "EUR_USD", bid_open := 217/200, bid_high := 109/100,
    bid_low := 2167/2000, bid_close := 271/250, ask_open := 217/200,
    ask_high := 1091/1000, ask_low := 1084/1000, ask_close := 10845/10000,
    volume := 100 }

/-- The trade the engine records for `specPosition` against `specBar`: closed
"SL" at the bid close 1.0840, gross −10 USD, costs 2.6 USD, net −12.6 USD. -/
def specTrade : Trade :=
  { entry_time := 0, exit_time := 0, instrument := "EUR_USD", direction := "BUY",
    units := 10000, entry_price := 217/200, exit_price := 271/250,
    stop_loss := 2167/2000, take_profit := 136/125, gross_pnl := -10,
    costs := 13/5, net_pnl := -63/5, pips := -10, hold_days := 0,
    exit_reason := "SL", metadata := [] }

/-- The engine state after that close. -/
def specStateAfter : BtState :=
  { current_balance := 49937/5, trades := [specTrade], open_positions := [],
    equity_curve := [] }

/-- Swap fixture: the same LONG EUR_USD position (stop 1.0835), held from
time 0. -/
def swapCexPosition : OpenPosition :=
  { entry_time := 0, instrument := "EUR_USD", direction := "BUY", units := 10000,
    entry_price := 217/200, stop_loss := 2167/2000, take_profit := 1088/1000,
    metadata := [] }

/-- Swap fixture: engine state holding only `swapCexPosition`. -/
def swapCexState : BtState :=
  { current_balance := 10000, trades := [], open_positions := [swapCexPosition],
    equity_curve := [] }

/-- Swap fixture: a stop-hitting bar ten days (864000 seconds) after entry, so
the EUR_USD long swap of −0.50 USD/lot/day contributes −5 USD against 2.6 USD
of spread+slippage: the total cost is negative. -/
def swapCexBar : Candle :=
  { time := 864000, instrument := "EUR_USD", bid_open := 217/200,
    bid_high := 1090/1000, bid_low := 1083/1000, bid_close := 271/250,
    ask_open := 217/200, ask_high := 1091/1000, ask_low := 1084/1000,
    ask_close := 10845/10000, volume := 100 }

/-- Margin fixture: a risk manager with `min_margin_level = 50`, the other
limits at their defaults. -/
def marginCexManager : RiskManager := { min_margin_level := 50 }

/-- Margin fixture: one existing position using 500 of margin with no
unrealized P&L. -/
def marginCexPosition : PositionInfo :=
  { instrument := "EUR_USD", units := 10000, unrealized_pnl := 0, margin_used := 500 }

/-- Pricing fixture: a candle carrying only midpoint data (close 2). -/
def midOnlyCandle : OandaCandle :=
  { bid := none, ask := none, mid := some { o := 2, h := 2, l := 2, c := 2 } }

/-- Pricing fixture: a candle carrying bid/ask data whose ask close is the
same 2. -/
def bidAskCandle : OandaCandle :=
  { bid := some { o := 1, h := 1, l := 1, c := 1 },
    ask := some { o := 2, h := 2, l := 2, c := 2 }, mid := none }

/-- Selection fixture: parameters of the zero-trade result. -/
def zeroTradeParams : ParameterSet :=
  { rsi_oversold := 30, rsi_overbought := 70, reward_risk_ratio := 3/2,
    atr_multiplier := 3/2, ma_short_period := 20, ma_long_period := 50,
    min_volume := 400, min_trend_strength := 5/10000 }

/-- Selection fixture: parameters of the hundred-trade result. -/
def manyTradeParams : ParameterSet :=
  { rsi_oversold := 25, rsi_overbought := 65, reward_risk_ratio := 1,
    atr_multiplier := 1, ma_short_period := 15, ma_long_period := 45,
    min_volume := 300, min_trend_strength := 3/10000 }

/-- Selection fixture: a training result with zero trades but stellar
metrics. -/
def zeroTradeResult : BacktestResult :=
  { params := zeroTradeParams, total_return := 50, win_rate := 1, sharpe_ratio := 3,
    profit_factor := 3, max_drawdown := 0, total_trades := 0 }

/-- Selection fixture: a training result with a hundred trades and modest
metrics. -/
def manyTradeResult : BacktestResult :=
  { params := manyTradeParams, total_return := 1, win_rate := 1/2, sharpe_ratio := 0,
    profit_factor := 1, max_drawdown := 10, total_trades := 100 }

/-- Run fixture: a one-bar data set with all prices 1. -/
def trivialCandle : Candle :=
  { time := 0, instrument := "EUR_USD", bid_open := 1, bid_high := 1, bid_low := 1,
    bid_close := 1, ask_open := 1, ask_high := 1, ask_low := 1, ask_close := 1,
    volume := 1 }

/-- Run fixture: a strategy that never signals. -/
def noSignalStrategy : StrategyFunc := fun _ _ => .ok none

/-- Run fixture: the freshly reset engine state without the equity seed. -/
def trivialState : BtState :=
  { current_balance := 10000, trades := [], open_positions := [], equity_curve := [] }

/-- Run fixture: `trivialState` after one no-signal bar. -/
def trivialStateAfter : BtState :=
  { current_balance := 10000, trades := [], open_positions := [],
    equity_curve := [(0, 10000)] }

/-- Run fixture: the final state of a full one-bar no-signal run (the seeded
equity point plus the bar's equity point). -/
def trivialRunResult : BtState :=
  { current_balance := 10000, trades := [], open_positions := [],
    equity_curve := [(0, 10000), (0, 10000)] }

/-! General lemmas about the embedded engine. -/

/-- Bind of a successful `Except` computation reduces to the continuation. -/
theorem exceptBindOk {α β ε : Type} (a : α) (f : α → Except ε β) :
    (Except.ok a >>= f) = f a := rfl

/-- Bind of a failed `Except` computation propagates the error. -/
theorem exceptBindErr {α β ε : Type} (e : ε) (f : α → Except ε β) :
    ((Except.error e : Except ε α) >>= f) = .error e := rfl

/-- Pure value of the `Except` monad is a success. -/
theorem exceptPureEq {α ε : Type} (a : α) : (pure a : Except ε α) = .ok a := rfl

/-- An invariant preserved by every successful step of a fold is preserved by
a successful `List.foldlM` over `Except`. -/
theorem foldlM_ok_inv {α σ ε : Type} (f : σ → α → Except ε σ) (P : σ → Prop)
    (hf : ∀ s a s', P s → f s a = .ok s' → P s') :
    ∀ (l : List α) (s s' : σ), P s → List.foldlM f s l = .ok s' → P s' := by
  intro l
  induction l with
  | nil =>
    intro s s' hs h
    rw [List.foldlM_nil, exceptPureEq] at h
    cases h
    exact hs
  | cons a t ih =>
    intro s s' hs h
    rw [List.foldlM_cons] at h
    cases hfa : f s a with
    | error e => rw [hfa, exceptBindErr] at h; cases h
    | ok s1 =>
      rw [hfa, exceptBindOk] at h
      exact ih s1 s' (hf s a s1 hs hfa) h

/-- Appending one trade adds its net P&L to the total. -/
theorem totalNetPnl_append (trades : List Trade) (t : Trade) :
    totalNetPnl (trades ++ [t]) = totalNetPnl trades + t.net_pnl := by
  simp [totalNetPnl]

/-- Erasing an element never lengthens a list. -/
theorem erase_length_le {α : Type} [BEq α] (l : List α) (a : α) :
    (l.erase a).length ≤ l.length :=
  (List.erase_sublist a l).length_le

/-- What a successful `_close_position` does to the state: it appends exactly
one trade carrying the requested exit reason and `net = gross - costs`,
advances the balance by exactly that trade's net P&L, removes the position
from the open set, and leaves the equity curve alone — one atomic step. -/
theorem close_position_spec (self : Backtester) (st : BtState)
    (position : OpenPosition) (candle : Candle) (reason : String) (st' : BtState)
    (h : self._close_position st position candle reason = .ok st') :
    ∃ t : Trade, st'.trades = st.trades ++ [t] ∧ t.exit_reason = reason ∧
      t.net_pnl = t.gross_pnl - t.costs ∧
      st'.current_balance = st.current_balance + t.net_pnl ∧
      st'.open_positions = st.open_positions.erase position ∧
      st'.equity_curve = st.equity_curve := by
  simp only [Backtester._close_position] at h
  split at h
  · cases h
  · split at h
    · cases h
    · cases h
      exact ⟨_, rfl, rfl, rfl, rfl, rfl, rfl⟩

/-- A successful `update_position_step` either leaves the state unchanged or
is a successful close of the inspected position. -/
theorem update_step_cases (self : Backtester) (candle : Candle) (tl : Option ℚ)
    (s : BtState) (pos : OpenPosition) (s' : BtState)
    (h : self.update_position_step candle tl s pos = .ok s') :
    s' = s ∨ ∃ reason, self._close_position s pos candle reason = .ok s' := by
  simp only [Backtester.update_position_step] at h
  split at h
  · split at h
    · exact Or.inr ⟨"SL", h⟩
    · split at h
      · exact Or.inr ⟨"TP", h⟩
      · split at h
        · exact Or.inr ⟨"TIME", h⟩
        · cases h; exact Or.inl rfl
  · split at h
    · exact Or.inr ⟨"SL", h⟩
    · split at h
      · exact Or.inr ⟨"TP", h⟩
      · split at h
        · exact Or.inr ⟨"TIME", h⟩
        · cases h; exact Or.inl rfl

/-- Any property preserved by successful closes at the current candle is
preserved by a successful `_update_open_positions`. -/
theorem update_preserves (self : Backtester) (candle : Candle) (tl : Option ℚ)
    (P : BtState → Prop)
    (hclose : ∀ s pos reason s', P s →
      self._close_position s pos candle reason = .ok s' → P s')
    (st st' : BtState) (hP : P st)
    (h : self._update_open_positions st candle tl = .ok st') : P st' := by
  simp only [Backtester._update_open_positions] at h
  refine foldlM_ok_inv _ P ?_ _ st st' hP h
  intro s pos s' hs hstep
  rcases update_step_cases self candle tl s pos s' hstep with rfl | ⟨r, hc⟩
  · exact hs
  · exact hclose s pos r s' hs hc

/-- What a successful `_open_position` does to the state: balance, trade log
and equity curve are untouched, and at most one position is appended. -/
theorem open_position_spec (self : Backtester) (st : BtState) (signal : Signal)
    (candle : Candle) (st' : BtState)
    (h : self._open_position st signal candle = .ok st') :
    st'.current_balance = st.current_balance ∧ st'.trades = st.trades ∧
      st'.equity_curve = st.equity_curve ∧
      st'.open_positions.length ≤ st.open_positions.length + 1 := by
  simp only [Backtester._open_position] at h
  repeat' split at h
  all_goals cases h
  all_goals refine ⟨rfl, rfl, rfl, ?_⟩
  all_goals first
    | omega
    | (simp only [List.length_append, List.length_cons, List.length_nil]; omega)

/-- Any state property preserved by successful closes, successful opens and
equity-point appends is preserved by a successful `run_bar`. -/
theorem run_bar_preserves (self : Backtester) (strategy_func : StrategyFunc)
    (tl : Option ℚ) (P : BtState → Prop)
    (hclose : ∀ candle s pos reason s', P s →
      self._close_position s pos candle reason = .ok s' → P s')
    (hopen : ∀ s signal candle s', P s →
      self._open_position s signal candle = .ok s' → P s')
    (hequity : ∀ s t eq, P s → P { s with equity_curve := s.equity_curve ++ [(t, eq)] })
    (prev : List Candle) (c : Candle) (st st' : BtState) (hP : P st)
    (h : self.run_bar strategy_func tl prev c st = .ok st') : P st' := by
  simp only [Backtester.run_bar] at h
  split at h
  · cases h
  · next st1 hu =>
    have hP1 : P st1 := update_preserves self c tl P (hclose c) st st1 hP hu
    split at h
    · cases h
    · next st2 hs2 =>
      have hP2 : P st2 := by
        split at hs2
        · split at hs2
          · cases hs2
          · next sig hsig =>
            split at hs2
            · exact hopen st1 sig c st2 hP1 hs2
            · cases hs2; exact hP1
          · cases hs2; exact hP1
        · cases hs2; exact hP1
      split at h
      · cases h
      · cases h
        exact hequity st2 c.time _ hP2

/-- Extension of `run_bar_preserves` along the whole bar loop: the property
holds at every intermediate state of a run, whatever prefix of the data has
already been processed. -/
theorem run_bars_preserves (self : Backtester) (strategy_func : StrategyFunc)
    (tl : Option ℚ) (P : BtState → Prop)
    (hclose : ∀ candle s pos reason s', P s →
      self._close_position s pos candle reason = .ok s' → P s')
    (hopen : ∀ s signal candle s', P s →
      self._open_position s signal candle = .ok s' → P s')
    (hequity : ∀ s t eq, P s → P { s with equity_curve := s.equity_curve ++ [(t, eq)] }) :
    ∀ (data prev : List Candle) (st st' : BtState), P st →
      Backtester.run_bars self strategy_func tl prev data st = .ok st' → P st' := by
  intro data
  induction data with
  | nil =>
    intro prev st st' hP h
    simp only [Backtester.run_bars] at h
    cases h
    exact hP
  | cons c rest ih =>
    intro prev st st' hP h
    simp only [Backtester.run_bars] at h
    split at h
    · cases h
    · next stm hbar =>
      exact ih (prev ++ [c]) stm st'
        (run_bar_preserves self strategy_func tl P hclose hopen hequity prev c st stm hP hbar)
        h

/-- A successful close never grows the open-position count (it erases). -/
theorem close_open_length_le (self : Backtester) (s : BtState) (pos : OpenPosition)
    (candle : Candle) (reason : String) (s' : BtState)
    (h : self._close_position s pos candle reason = .ok s') :
    s'.open_positions.length ≤ s.open_positions.length := by
  rcases close_position_spec self s pos candle reason s' h with ⟨t, _, _, _, _, hop, _⟩
  rw [hop]
  exact erase_length_le s.open_positions pos

/-- A successful `_update_open_positions` never grows the open-position
count. -/
theorem update_open_length_le (self : Backtester) (st : BtState) (candle : Candle)
    (tl : Option ℚ) (st' : BtState)
    (h : self._update_open_positions st candle tl = .ok st') :
    st'.open_positions.length ≤ st.open_positions.length := by
  refine update_preserves self candle tl
    (fun s => s.open_positions.length ≤ st.open_positions.length) ?_ st st' le_rfl h
  intro s pos reason s' hs hc
  exact le_trans (close_open_length_le self s pos candle reason s' hc) hs

/-- One bar of processing keeps the open-position count within
`max_positions`, assuming it was within before the bar: closes only shrink
the set, and the strategy is only consulted — and a position only opened —
when the count is strictly below the cap. -/
theorem run_bar_open_le (self : Backtester) (strategy_func : StrategyFunc)
    (tl : Option ℚ) (prev : List Candle) (c : Candle) (st st' : BtState)
    (hP : st.open_positions.length ≤ self.max_positions)
    (h : self.run_bar strategy_func tl prev c st = .ok st') :
    st'.open_positions.length ≤ self.max_positions := by
  simp only [Backtester.run_bar] at h
  split at h
  · cases h
  · next st1 hu =>
    have h1 : st1.open_positions.length ≤ self.max_positions :=
      le_trans (update_open_length_le self st c tl st1 hu) hP
    split at h
    · cases h
    · next st2 hs2 =>
      have h2 : st2.open_positions.length ≤ self.max_positions := by
        split at hs2
        · next hcap =>
          split at hs2
          · cases hs2
          · next sig hsig =>
            split at hs2
            · have := (open_position_spec self st1 sig c st2 hs2).2.2.2
              omega
            · cases hs2; exact h1
          · cases hs2; exact h1
        · cases hs2; exact h1
      split at h
      · cases h
      · cases h
        exact h2

/-- Prefix-closure of the capacity bound along the bar loop. -/
theorem run_bars_open_le (self : Backtester) (strategy_func : StrategyFunc)
    (tl : Option ℚ) :
    ∀ (data prev : List Candle) (st st' : BtState),
      st.open_positions.length ≤ self.max_positions →
      Backtester.run_bars self strategy_func tl prev data st = .ok st' →
      st'.open_positions.length ≤ self.max_positions := by
  intro data
  induction data with
  | nil =>
    intro prev st st' hP h
    simp only [Backtester.run_bars] at h
    cases h
    exact hP
  | cons c rest ih =>
    intro prev st st' hP h
    simp only [Backtester.run_bars] at h
    split at h
    · cases h
    · next stm hbar =>
      exact ih (prev ++ [c]) stm st'
        (run_bar_open_le self strategy_func tl prev c st stm hP hbar) h

/-- Concrete evaluation of the spec scenario: against `specBar` — whose bid
low touches the stop exactly and whose bid high also reaches the target — the
engine closes `specPosition` as a stop-loss, producing `specStateAfter`. -/
theorem spec_update_eval :
    ({} : Backtester)._update_open_positions specState specBar none
      = .ok specStateAfter := by
  norm_num +decide [Backtester._update_open_positions, Backtester.update_position_step,
    Backtester._close_position, specState, specBar, specPosition, specStateAfter,
    specTrade, List.foldlM, exceptBindOk, exceptBindErr, exceptPureEq,
    PipCalculator.calculate_pip_value_from_price_diff, PipCalculator.calculate_pip_value,
    (by decide : pySplit "EUR_USD" '_' = ["EUR", "USD"]),
    PipCalculator._get_pip_location,
    CostCalculator.calculate_trade_costs, CostCalculator.getProfile,
    (by decide : parseMarketCondition "normal" = MarketCondition.normal),
    CostCalculator._get_spread, CostCalculator._get_slippage, CostCalculator._get_swap_cost,
    eurUsdProfile, COST_PROFILES, List.lookup]

/-- Auxiliary for the optimizer: folding `select_step` from a running best
returns a member (or the seed) that maximizes the fitness score over
everything compared. -/
theorem select_step_fold_spec :
    ∀ (l : List BacktestResult) (b r : BacktestResult),
      List.foldl WalkForwardOptimizer.select_step (some b) l = some r →
      (r = b ∨ r ∈ l) ∧ b.fitness_score ≤ r.fitness_score ∧
        ∀ r' ∈ l, r'.fitness_score ≤ r.fitness_score := by
  intro l
  induction l with
  | nil =>
    intro b r h
    simp only [List.foldl_nil] at h
    cases h
    exact ⟨Or.inl rfl, le_rfl, by simp⟩
  | cons a t ih =>
    intro b r h
    simp only [List.foldl_cons] at h
    by_cases hba : b.fitness_score < a.fitness_score
    · rw [show WalkForwardOptimizer.select_step (some b) a = some a by
        simp [WalkForwardOptimizer.select_step, hba]] at h
      rcases ih a r h with ⟨hmem, hle, hall⟩
      refine ⟨?_, le_trans (le_of_lt hba) hle, ?_⟩
      · rcases hmem with heq | hm
        · rw [heq]; exact Or.inr (List.mem_cons_self _ t)
        · exact Or.inr (List.mem_cons_of_mem a hm)
      · intro r' hr'
        rcases List.mem_cons.mp hr' with heq | hm
        · rw [heq]; exact hle
        · exact hall r' hm
    · rw [show WalkForwardOptimizer.select_step (some b) a = some b by
        simp [WalkForwardOptimizer.select_step, hba]] at h
      rcases ih b r h with ⟨hmem, hle, hall⟩
      refine ⟨?_, hle, ?_⟩
      · rcases hmem with heq | hm
        · exact Or.inl heq
        · exact Or.inr (List.mem_cons_of_mem a hm)
      · intro r' hr'
        rcases List.mem_cons.mp hr' with heq | hm
        · rw [heq]; exact le_trans (not_lt.mp hba) hle
        · exact hall r' hm

/-! Claim theorems. -/

/-- C1 (amended): an exception raised by the external strategy signal
function is not caught by the engine.  Whenever the data is non-empty and
there is any position capacity, a strategy function that raises makes the
whole run abort with that exception: `run` returns the error, produces no
result, and processes no further bars.  (Callers may wrap their own strategy
functions in try/except, as `comprehensive_backtest.py` does, but `run`
itself — the engine — does not.) -/
theorem strategy_exception_propagates (self : Backtester) (e : String)
    (data : List Candle) (mhb : ℕ) (tl : Option ℚ)
    (hne : data ≠ []) (hcap : 0 < self.max_positions) :
    self.run (fun _ _ => .error e) data mhb tl = .error e := by
  cases data with
  | nil => exact absurd rfl hne
  | cons d0 rest =>
    simp only [Backtester.run, Backtester.run_bars, Backtester.run_bar,
      Backtester._update_open_positions, List.foldlM_nil, exceptPureEq,
      List.length_nil]
    rw [if_pos hcap]

/-- C1 witness: a concrete one-bar run with a raising strategy aborts. -/
theorem strategy_exception_propagates_witness :
    ({} : Backtester).run (fun _ _ => .error "bar error") [trivialCandle] 100 none
      = .error "bar error" :=
  strategy_exception_propagates {} "bar error" [trivialCandle] 100 none
    (by simp) (by decide)

/-- C1 counterexample to the claim as stated: the claim says an exception
from the strategy signal function is caught, logged and treated as
no-signal-this-bar, never aborting the run; on this concrete one-bar run the
engine instead returns the exception itself — the run aborts with no
result. -/
theorem strategy_exception_aborts_run_cex :
    ({} : Backtester).run (fun _ _ => .error "boom") [trivialCandle] 100 none
      = .error "boom" := by
  norm_num +decide [Backtester.run, Backtester.run_bars, Backtester.run_bar,
    Backtester._update_open_positions, List.foldlM, exceptBindOk, exceptBindErr,
    exceptPureEq, trivialCandle]

/-- C2 (amended): an instrument with no configured cost profile does not make
the cost calculation fail.  `calculate_trade_costs` silently substitutes the
EUR_USD profile (with only a log warning) and returns the EUR_USD numbers
relabelled with the requested instrument name — nothing in the returned
breakdown flags the substitution. -/
theorem unknown_instrument_uses_eurusd_profile (instrument : String) (units : ℤ)
    (entry_price : ℚ) (exit_price : Option ℚ) (hold_days : ℚ)
    (market_condition : String) (include_slippage : Bool)
    (h : COST_PROFILES.lookup instrument = none) :
    ({} : CostCalculator).calculate_trade_costs instrument units entry_price exit_price
        hold_days market_condition include_slippage
      = (({} : CostCalculator).calculate_trade_costs "EUR_USD" units entry_price
          exit_price hold_days market_condition include_slippage).map
            (fun r => { r with instrument := instrument }) := by
  have h1 : ({} : CostCalculator).getProfile instrument = .ok eurUsdProfile := by
    simp only [CostCalculator.getProfile]
    rw [h]
    rfl
  have h2 : ({} : CostCalculator).getProfile "EUR_USD" = .ok eurUsdProfile := rfl
  simp only [CostCalculator.calculate_trade_costs, h1, h2]
  cases exit_price with
  | none => rfl
  | some xp => rfl

/-- C2 witness: the unknown instrument XAU_USD gets exactly the EUR_USD
breakdown, relabelled. -/
theorem unknown_instrument_uses_eurusd_profile_witness :
    ({} : CostCalculator).calculate_trade_costs "XAU_USD" 10000 (217/200)
        (some (10865/10000)) 0 "normal" true
      = (({} : CostCalculator).calculate_trade_costs "EUR_USD" 10000 (217/200)
          (some (10865/10000)) 0 "normal" true).map
            (fun r => { r with instrument := "XAU_USD" }) :=
  unknown_instrument_uses_eurusd_profile "XAU_USD" 10000 (217/200)
    (some (10865/10000)) 0 "normal" true (by decide)

/-- C2 counterexample to the claim as stated: the claim says an instrument
without a cost profile fails with a `ConfigurationError`; for the unknown
instrument XAU_USD the calculation instead succeeds, returning the EUR_USD
profile's costs (spread 0.8 × 2 pips, total 2.6 USD) under the requested
instrument name, with no substitution flag in the result. -/
theorem unknown_instrument_silent_fallback_cex :
    ∃ r : CostResult, ({} : CostCalculator).calculate_trade_costs "XAU_USD" 10000
        (217/200) (some (10865/10000)) 0 "normal" true = .ok r
      ∧ r.instrument = "XAU_USD" ∧ r.spread_cost_pips = 8/10 * 2
      ∧ r.swap_cost_usd = 0 ∧ r.total_cost_usd = 13/5 := by
  norm_num +decide [CostCalculator.calculate_trade_costs, CostCalculator.getProfile,
    (by decide : parseMarketCondition "normal" = MarketCondition.normal),
    (by decide : List.lookup "XAU_USD" COST_PROFILES
      = (none : Option InstrumentCostProfile)),
    (show List.lookup "EUR_USD" COST_PROFILES = some eurUsdProfile from rfl),
    CostCalculator._get_spread, CostCalculator._get_slippage,
    CostCalculator._get_swap_cost, eurUsdProfile]

/-- C3: for an open LONG position, exit triggers are evaluated from the bar's
extremes with the stop checked first: a stop-loss close ("SL") happens
exactly when `bid_low ≤ stop_loss` (the boundary is inclusive) — even when
the same bar's `bid_high` also reaches the take-profit — then "TP" when
`bid_high ≥ take_profit`, then the time-limit check; otherwise no trade is
recorded and the position stays open. -/
theorem long_stop_inclusive_and_priority
    (self : Backtester) (st : BtState) (candle : Candle) (tl : Option ℚ)
    (pos : OpenPosition) (st' : BtState)
    (hopen : st.open_positions = [pos])
    (hdir : pos.direction = "BUY")
    (hupd : self._update_open_positions st candle tl = .ok st') :
    ((st'.trades.drop st.trades.length).map Trade.exit_reason)
      = (if candle.bid_low ≤ pos.stop_loss then ["SL"]
         else if pos.take_profit ≤ candle.bid_high then ["TP"]
         else if pyTruthy tl ∧ tl.getD 0 ≤ (candle.time - pos.entry_time) / 3600 then
           ["TIME"]
         else [])
    ∧ st'.open_positions
      = (if candle.bid_low ≤ pos.stop_loss ∨ pos.take_profit ≤ candle.bid_high ∨
            (pyTruthy tl ∧ tl.getD 0 ≤ (candle.time - pos.entry_time) / 3600) then []
         else [pos]) := by
  simp only [Backtester._update_open_positions, hopen, List.foldlM_cons,
    List.foldlM_nil] at hupd
  cases hstep : self.update_position_step candle tl st pos with
  | error e => rw [hstep, exceptBindErr] at hupd; cases hupd
  | ok s1 =>
    rw [hstep, exceptBindOk, exceptPureEq] at hupd
    cases hupd
    simp only [Backtester.update_position_step, hdir, if_pos rfl] at hstep
    by_cases h1 : candle.bid_low ≤ pos.stop_loss
    · rw [if_pos h1] at hstep
      rcases close_position_spec self st pos candle "SL" st' hstep with
        ⟨t, ht, hr, _, _, hop, _⟩
      rw [if_pos h1, if_pos (Or.inl h1), ht, hop, hopen]
      constructor
      · rw [List.drop_left, List.map_cons, List.map_nil, hr]
      · exact List.erase_cons_head pos []
    · rw [if_neg h1] at hstep
      by_cases h2 : pos.take_profit ≤ candle.bid_high
      · rw [if_pos h2] at hstep
        rcases close_position_spec self st pos candle "TP" st' hstep with
          ⟨t, ht, hr, _, _, hop, _⟩
        rw [if_neg h1, if_pos h2, if_pos (Or.inr (Or.inl h2)), ht, hop, hopen]
        constructor
        · rw [List.drop_left, List.map_cons, List.map_nil, hr]
        · exact List.erase_cons_head pos []
      · rw [if_neg h2] at hstep
        by_cases h3 : pyTruthy tl ∧ tl.getD 0 ≤ (candle.time - pos.entry_time) / 3600
        · rw [if_pos h3] at hstep
          rcases close_position_spec self st pos candle "TIME" st' hstep with
            ⟨t, ht, hr, _, _, hop, _⟩
          rw [if_neg h1, if_neg h2, if_pos h3, if_pos (Or.inr (Or.inr h3)), ht, hop,
            hopen]
          constructor
          · rw [List.drop_left, List.map_cons, List.map_nil, hr]
          · exact List.erase_cons_head pos []
        · rw [if_neg h3] at hstep
          cases hstep
          rw [if_neg h1, if_neg h2, if_neg h3, if_neg ?_, List.drop_length]
          · exact ⟨rfl, hopen⟩
          · rintro (h | h | h)
            · exact h1 h
            · exact h2 h
            · exact h3 h

/-- C3 witness: the spec scenario — entry 1.0850, 15-pip stop, a bar whose
bid low hits 1.0835 exactly and whose bid high also reaches the target —
closes as "SL". -/
theorem long_stop_inclusive_and_priority_witness :
    ((specStateAfter.trades.drop specState.trades.length).map Trade.exit_reason)
      = (if specBar.bid_low ≤ specPosition.stop_loss then ["SL"]
         else if specPosition.take_profit ≤ specBar.bid_high then ["TP"]
         else if pyTruthy none ∧ (none : Option ℚ).getD 0 ≤
             (specBar.time - specPosition.entry_time) / 3600 then ["TIME"]
         else [])
    ∧ specStateAfter.open_positions
      = (if specBar.bid_low ≤ specPosition.stop_loss ∨
            specPosition.take_profit ≤ specBar.bid_high ∨
            (pyTruthy none ∧ (none : Option ℚ).getD 0 ≤
              (specBar.time - specPosition.entry_time) / 3600) then []
         else [specPosition]) :=
  long_stop_inclusive_and_priority {} specState specBar none specPosition
    specStateAfter rfl rfl spec_update_eval

/-- C4: the open-position count never exceeds `max_positions` at any point
during a run — updating open positions only shrinks the set, `_open_position`
appends at most one position, and the per-bar guard only consults the
strategy (and so only opens) when the count is strictly below the cap, so the
bound holds at every intermediate state of the bar loop, from any prefix of
the data onward. -/
theorem max_positions_invariant :
    (∀ (self : Backtester) (st : BtState) (candle : Candle) (tl : Option ℚ)
        (st' : BtState),
      self._update_open_positions st candle tl = .ok st' →
      st'.open_positions.length ≤ st.open_positions.length)
    ∧ (∀ (self : Backtester) (st : BtState) (signal : Signal) (candle : Candle)
        (st' : BtState),
      self._open_position st signal candle = .ok st' →
      st'.open_positions.length ≤ st.open_positions.length + 1)
    ∧ (∀ (self : Backtester) (strategy_func : StrategyFunc) (tl : Option ℚ)
        (prev data : List Candle) (st st' : BtState),
      st.open_positions.length ≤ self.max_positions →
      Backtester.run_bars self strategy_func tl prev data st = .ok st' →
      st'.open_positions.length ≤ self.max_positions) := by
  refine ⟨?_, ?_, ?_⟩
  · exact fun self st candle tl st' h => update_open_length_le self st candle tl st' h
  · exact fun self st signal candle st' h =>
      (open_position_spec self st signal candle st' h).2.2.2
  · exact fun self strat tl prev data st st' hP h =>
      run_bars_open_le self strat tl data prev st st' hP h

/-- C4 witness: a concrete one-bar no-signal run stays within the default cap
of three positions. -/
theorem max_positions_invariant_witness :
    trivialStateAfter.open_positions.length ≤ ({} : Backtester).max_positions :=
  max_positions_invariant.2.2 {} noSignalStrategy none [] [trivialCandle]
    trivialState trivialStateAfter (by decide)
    (by norm_num +decide [Backtester.run_bars, Backtester.run_bar,
      Backtester._update_open_positions, Backtester._calculate_equity,
      List.foldlM, exceptBindOk, exceptBindErr, exceptPureEq,
      trivialCandle, trivialState, trivialStateAfter, noSignalStrategy])

/-- C5 (amended): a bar whose bid low reaches the stop of a single open LONG
position closes it with exit reason "SL" and records `net = gross - costs`;
`net ≤ gross` holds whenever the total cost is non-negative (in particular
for every intraday close, where the swap term is zero), but not
unconditionally, because a negative swap can make the total cost negative. -/
theorem stop_loss_close_net_pnl
    (self : Backtester) (st : BtState) (candle : Candle) (tl : Option ℚ)
    (pos : OpenPosition) (st' : BtState)
    (hopen : st.open_positions = [pos])
    (hdir : pos.direction = "BUY")
    (hstop : candle.bid_low ≤ pos.stop_loss)
    (hupd : self._update_open_positions st candle tl = .ok st') :
    ∃ t : Trade, st'.trades = st.trades ++ [t] ∧ t.exit_reason = "SL" ∧
      t.net_pnl = t.gross_pnl - t.costs ∧
      (0 ≤ t.costs → t.net_pnl ≤ t.gross_pnl) := by
  simp only [Backtester._update_open_positions, hopen, List.foldlM_cons,
    List.foldlM_nil] at hupd
  cases hstep : self.update_position_step candle tl st pos with
  | error e => rw [hstep, exceptBindErr] at hupd; cases hupd
  | ok s1 =>
    rw [hstep, exceptBindOk, exceptPureEq] at hupd
    cases hupd
    simp only [Backtester.update_position_step, hdir, if_pos rfl, if_pos hstop] at hstep
    rcases close_position_spec self st pos candle "SL" st' hstep with
      ⟨t, ht, hr, hnet, _, _, _⟩
    refine ⟨t, ht, hr, hnet, ?_⟩
    intro hc
    rw [hnet]
    linarith

/-- C5 witness: the intraday spec scenario records an "SL" trade with
`net = gross - costs`. -/
theorem stop_loss_close_net_pnl_witness :
    ∃ t : Trade, specStateAfter.trades = specState.trades ++ [t] ∧
      t.exit_reason = "SL" ∧ t.net_pnl = t.gross_pnl - t.costs ∧
      (0 ≤ t.costs → t.net_pnl ≤ t.gross_pnl) :=
  stop_loss_close_net_pnl {} specState specBar none specPosition specStateAfter
    rfl rfl (by norm_num [specBar, specPosition]) spec_update_eval

/-- C5 counterexample to the claim as stated: a LONG EUR_USD position held
ten days and stopped out records an "SL" trade whose net P&L is strictly
greater than its gross P&L — the swap of −0.50 USD/lot/day outweighs the
2.6 USD of spread and slippage, making the subtracted total cost negative. -/
theorem net_pnl_can_exceed_gross_cex :
    ∃ st' t,
      ({} : Backtester)._update_open_positions swapCexState swapCexBar none = .ok st' ∧
      st'.trades = [t] ∧ t.exit_reason = "SL" ∧ t.gross_pnl < t.net_pnl := by
  norm_num +decide [Backtester._update_open_positions, Backtester.update_position_step,
    Backtester._close_position, swapCexState, swapCexBar, swapCexPosition,
    List.foldlM, exceptBindOk, exceptBindErr, exceptPureEq,
    PipCalculator.calculate_pip_value_from_price_diff, PipCalculator.calculate_pip_value,
    (by decide : pySplit "EUR_USD" '_' = ["EUR", "USD"]),
    PipCalculator._get_pip_location,
    CostCalculator.calculate_trade_costs, CostCalculator.getProfile,
    (by decide : parseMarketCondition "normal" = MarketCondition.normal),
    CostCalculator._get_spread, CostCalculator._get_slippage, CostCalculator._get_swap_cost,
    eurUsdProfile, COST_PROFILES, List.lookup]

/-- C6: whenever the leverage check passes (with a positive balance) and the
per-trade risk `stop_loss_pips × pip_value × lots / balance × 100` exceeds
`max_risk_per_trade`, validation rejects the position with a reason that
names the risk-per-trade check and its computed value, and the `checks`
record holds exactly the leverage check and the risk check — the exposure,
margin and sanity checks were never attempted (short-circuit in order). -/
theorem risk_per_trade_rejection
    (rm : RiskManager) (account_balance : ℚ) (new_position_units : ℤ)
    (instrument : String) (current_price stop_loss_pips pip_value margin_rate : ℚ)
    (existing_positions : List PositionInfo)
    (hbal : 0 < account_balance)
    (hlev : ((existing_positions.map (fun p => |(p.units : ℚ)| * 1)).sum
        + |(new_position_units : ℚ)| * current_price) / account_balance ≤ rm.max_leverage)
    (hrisk : rm.max_risk_per_trade <
        stop_loss_pips * pip_value * (|(new_position_units : ℚ)| / 10000)
          / account_balance * 100) :
    (rm.validate_position account_balance new_position_units instrument current_price
        stop_loss_pips pip_value existing_positions margin_rate).allowed = false ∧
    (rm.validate_position account_balance new_position_units instrument current_price
        stop_loss_pips pip_value existing_positions margin_rate).reason
      = .riskPerTradeExceeded
          (stop_loss_pips * pip_value * (|(new_position_units : ℚ)| / 10000)
            / account_balance * 100) rm.max_risk_per_trade ∧
    (rm.validate_position account_balance new_position_units instrument current_price
        stop_loss_pips pip_value existing_positions margin_rate).checks
      = { leverage := some (rm._check_leverage account_balance
            (|(new_position_units : ℚ)| * current_price) existing_positions),
          risk_per_trade := some (rm._check_risk_per_trade account_balance
            new_position_units stop_loss_pips pip_value),
          exposure := none, margin := none, sanity := none } := by
  have hlc : (rm._check_leverage account_balance
      (|(new_position_units : ℚ)| * current_price) existing_positions).passed = true := by
    simp only [RiskManager._check_leverage]
    rw [if_pos hbal]
    exact decide_eq_true hlev
  have hrc : (rm._check_risk_per_trade account_balance new_position_units
      stop_loss_pips pip_value).passed = false := by
    simp only [RiskManager._check_risk_per_trade]
    rw [if_pos hbal]
    exact decide_eq_false (not_le.mpr hrisk)
  have hval : (rm._check_risk_per_trade account_balance new_position_units
      stop_loss_pips pip_value).value
      = stop_loss_pips * pip_value * (|(new_position_units : ℚ)| / 10000)
        / account_balance * 100 := by
    simp only [RiskManager._check_risk_per_trade]
    rw [if_pos hbal]
  simp only [RiskManager.validate_position, hlc, hrc]
  norm_num [hval]

/-- C6 witness: the spec scenario — a 50000-unit position with a 50-pip stop
risking 2.5% of a 10000 balance under the default 1.0% limit — is rejected
for the risk-per-trade reason after the leverage check passed. -/
theorem risk_per_trade_rejection_witness :
    (({} : RiskManager).validate_position 10000 50000 "EUR_USD" (217/200)
        50 1 [] (3333/100000)).allowed = false ∧
    (({} : RiskManager).validate_position 10000 50000 "EUR_USD" (217/200)
        50 1 [] (3333/100000)).reason
      = .riskPerTradeExceeded (50 * 1 * (|((50000 : ℤ) : ℚ)| / 10000) / 10000 * 100) 1 ∧
    (({} : RiskManager).validate_position 10000 50000 "EUR_USD" (217/200)
        50 1 [] (3333/100000)).checks
      = { leverage := some (({} : RiskManager)._check_leverage 10000
            (|((50000 : ℤ) : ℚ)| * (217/200)) []),
          risk_per_trade := some (({} : RiskManager)._check_risk_per_trade 10000
            50000 50 1),
          exposure := none, margin := none, sanity := none } :=
  risk_per_trade_rejection {} 10000 50000 "EUR_USD" (217/200) 50 1 (3333/100000) []
    (by norm_num) (by norm_num) (by norm_num)

/-- C7 (amended): the margin sub-check passes exactly when BOTH the free
margin covers the new margin requirement (`new_margin ≤ equity − used_margin`)
AND the margin level `equity / (used + new) × 100` (999 when the denominator
is not positive) is at least `min_margin_level` — the source conjoins a
free-margin condition with the margin-level inequality, so the level
inequality alone is not the whole condition. -/
theorem margin_check_characterization
    (rm : RiskManager) (account_balance new_position_value margin_rate : ℚ)
    (existing_positions : List PositionInfo) :
    (rm._check_margin_requirement account_balance new_position_value
        existing_positions margin_rate).passed = true
      ↔ (new_position_value * margin_rate ≤
            (account_balance + (existing_positions.map PositionInfo.unrealized_pnl).sum)
              - (existing_positions.map PositionInfo.margin_used).sum
          ∧ rm.min_margin_level ≤
            (if 0 < (existing_positions.map PositionInfo.margin_used).sum
                  + new_position_value * margin_rate
             then (account_balance + (existing_positions.map PositionInfo.unrealized_pnl).sum)
                / ((existing_positions.map PositionInfo.margin_used).sum
                    + new_position_value * margin_rate) * 100
             else 999)) := by
  simp only [RiskManager._check_margin_requirement, Bool.and_eq_true, decide_eq_true_eq]

/-- C7 counterexample to the claim as stated: with `min_margin_level = 50`, a
balance of 600, one position using 500 of margin and a new margin
requirement of 300, the margin level is 75 ≥ 50 — so by the claim the check
should pass — yet `passed = false`, because the free margin 100 does not
cover the 300 required. -/
theorem margin_level_alone_insufficient_cex :
    (marginCexManager._check_margin_requirement 600 3000 [marginCexPosition]
        (1/10)).passed = false
    ∧ marginCexManager.min_margin_level
        ≤ (marginCexManager._check_margin_requirement 600 3000 [marginCexPosition]
            (1/10)).margin_level := by
  norm_num [RiskManager._check_margin_requirement, marginCexManager, marginCexPosition]

/-- C8 (amended): the fill pricer returns the ask-side price for a BUY-side
execution and the bid-side price for a SELL-side execution when the candle
carries bid/ask data, and falls back to the midpoint for a mid-only candle —
but the return value is a bare price for both directions; no
`approximate` flag accompanies the midpoint fallback (only a log warning). -/
theorem execution_price_sides (candle : OandaCandle) (b a m : PriceSide) :
    (candle.bid = some b → candle.ask = some a →
      BidAskPricer.get_execution_price candle "BUY" "close" = .ok a.c ∧
      BidAskPricer.get_execution_price candle "SELL" "close" = .ok b.c)
    ∧ (candle.bid = none → candle.mid = some m →
      BidAskPricer.get_execution_price candle "BUY" "close" = .ok m.c ∧
      BidAskPricer.get_execution_price candle "SELL" "close" = .ok m.c) := by
  constructor
  · intro hb ha
    constructor
    · simp +decide [BidAskPricer.get_execution_price, hb, ha,
        (by decide : upperStr "BUY" = "BUY"),
        (by decide : "close".data = ['c', 'l', 'o', 's', 'e']),
        PriceSide.getattr, lowerChar]
    · simp +decide [BidAskPricer.get_execution_price, hb, ha,
        (by decide : upperStr "SELL" = "SELL"),
        (by decide : "close".data = ['c', 'l', 'o', 's', 'e']),
        PriceSide.getattr, lowerChar]
  · intro hb hm
    constructor
    · simp +decide [BidAskPricer.get_execution_price, BidAskPricer._get_midpoint_price,
        hb, hm, (by decide : "close".data = ['c', 'l', 'o', 's', 'e']),
        PriceSide.getattr, lowerChar]
    · simp +decide [BidAskPricer.get_execution_price, BidAskPricer._get_midpoint_price,
        hb, hm, (by decide : "close".data = ['c', 'l', 'o', 's', 'e']),
        PriceSide.getattr, lowerChar]

/-- C8 counterexample to the claim as stated: the claim requires a mid-only
bar's result to be flagged `approximate=true`; the function returns a bare
price, and the mid-only result is byte-identical to a genuine (exact)
bid/ask result — the caller cannot tell them apart, so nothing is flagged. -/
theorem midpoint_fallback_unflagged_cex :
    BidAskPricer.get_execution_price midOnlyCandle "BUY" "close" = .ok 2
    ∧ BidAskPricer.get_execution_price bidAskCandle "BUY" "close" = .ok 2
    ∧ BidAskPricer.get_execution_price midOnlyCandle "BUY" "close"
        = BidAskPricer.get_execution_price bidAskCandle "BUY" "close" := by
  norm_num +decide [BidAskPricer.get_execution_price, BidAskPricer._get_midpoint_price,
    midOnlyCandle, bidAskCandle, PriceSide.getattr, lowerChar, upperStr]

/-- C9 (amended): the training-window winner is whatever result maximizes the
fixed weighted composite `fitness_score` (30% clamped return, 30% clamped
Sharpe, 20% win rate, 20% clamped profit factor) over the whole grid, first
maximizer winning ties — the selection imposes no minimum trade count and no
pluggable single-metric choice: every result, including zero-trade ones, is
eligible and compared on the same composite. -/
theorem select_best_maximizes_fitness (results : List BacktestResult)
    (r : BacktestResult)
    (h : WalkForwardOptimizer.select_best_result results = some r) :
    r ∈ results ∧ ∀ r' ∈ results, r'.fitness_score ≤ r.fitness_score := by
  cases results with
  | nil => cases h
  | cons a t =>
    simp only [WalkForwardOptimizer.select_best_result, List.foldl_cons] at h
    rw [show WalkForwardOptimizer.select_step none a = some a from rfl] at h
    rcases select_step_fold_spec t a r h with ⟨hmem, hle, hall⟩
    refine ⟨?_, ?_⟩
    · rcases hmem with heq | hm
      · rw [heq]; exact List.mem_cons_self _ t
      · exact List.mem_cons_of_mem a hm
    · intro r' hr'
      rcases List.mem_cons.mp hr' with heq | hm
      · rw [heq]; exact hle
      · exact hall r' hm

/-- C9 witness: on a concrete two-result grid the selected result is a member
maximizing the composite fitness. -/
theorem select_best_maximizes_fitness_witness :
    zeroTradeResult ∈ [manyTradeResult, zeroTradeResult]
    ∧ ∀ r' ∈ [manyTradeResult, zeroTradeResult],
        r'.fitness_score ≤ zeroTradeResult.fitness_score :=
  select_best_maximizes_fitness [manyTradeResult, zeroTradeResult] zeroTradeResult
    (by norm_num [WalkForwardOptimizer.select_best_result,
      WalkForwardOptimizer.select_step, List.foldl, BacktestResult.fitness_score,
      zeroTradeResult, manyTradeResult, zeroTradeParams, manyTradeParams])

/-- C9 counterexample to the claim as stated: the claim says parameter sets
producing fewer trades than the configured minimum are excluded from
selection entirely; the selection loop instead picks a zero-trade result over
a hundred-trade one, because nothing about trade counts enters the
comparison (and there is no configurable fitness metric — only the fixed
composite). -/
theorem zero_trade_params_selected_cex :
    WalkForwardOptimizer.select_best_result [manyTradeResult, zeroTradeResult]
      = some zeroTradeResult
    ∧ zeroTradeResult.total_trades = 0 ∧ 0 < manyTradeResult.total_trades := by
  refine ⟨?_, rfl, by norm_num [manyTradeResult]⟩
  norm_num [WalkForwardOptimizer.select_best_result, WalkForwardOptimizer.select_step,
    List.foldl, BacktestResult.fitness_score, zeroTradeResult, manyTradeResult,
    zeroTradeParams, manyTradeParams]

/-- C10: the realized balance always equals the initial balance plus the sum
of net P&L over the trades recorded so far — opening a position changes
neither the balance nor the trade log, closing one advances the balance by
exactly the appended trade's net P&L in the same step that appends the trade
and removes the position, and every successful run ends with
`balance = initial + Σ net_pnl`. -/
theorem balance_equals_initial_plus_net_pnl :
    (∀ (self : Backtester) (st : BtState) (signal : Signal) (candle : Candle)
        (st' : BtState),
      self._open_position st signal candle = .ok st' →
      st'.current_balance = st.current_balance ∧ st'.trades = st.trades)
    ∧ (∀ (self : Backtester) (st : BtState) (pos : OpenPosition) (candle : Candle)
        (reason : String) (st' : BtState),
      self._close_position st pos candle reason = .ok st' →
      ∃ t : Trade, st'.trades = st.trades ++ [t] ∧
        st'.current_balance = st.current_balance + t.net_pnl ∧
        st'.open_positions = st.open_positions.erase pos)
    ∧ (∀ (self : Backtester) (strategy_func : StrategyFunc) (data : List Candle)
        (mhb : ℕ) (tl : Option ℚ) (st' : BtState),
      self.run strategy_func data mhb tl = .ok st' →
      st'.current_balance = self.initial_balance + totalNetPnl st'.trades) := by
  refine ⟨?_, ?_, ?_⟩
  · intro self st signal candle st' h
    exact ⟨(open_position_spec self st signal candle st' h).1,
      (open_position_spec self st signal candle st' h).2.1⟩
  · intro self st pos candle reason st' h
    rcases close_position_spec self st pos candle reason st' h with ⟨t, h1, _, _, h4, h5, _⟩
    exact ⟨t, h1, h4, h5⟩
  · intro self strat data mhb tl st' h
    have hclose : ∀ candle s pos reason s',
        (fun s : BtState => s.current_balance = self.initial_balance + totalNetPnl s.trades) s →
        self._close_position s pos candle reason = .ok s' →
        s'.current_balance = self.initial_balance + totalNetPnl s'.trades := by
      intro candle s pos reason s' hs hc
      rcases close_position_spec self s pos candle reason s' hc with ⟨t, h1, _, _, h4, _, _⟩
      rw [h4, h1, totalNetPnl_append, hs]
      ring
    cases data with
    | nil => simp only [Backtester.run] at h; cases h
    | cons d0 rest =>
      simp only [Backtester.run] at h
      split at h
      · cases h
      · next stm hrb =>
        have hPm : stm.current_balance = self.initial_balance + totalNetPnl stm.trades := by
          refine run_bars_preserves self strat tl
            (fun s => s.current_balance = self.initial_balance + totalNetPnl s.trades)
            hclose ?_ ?_ (d0 :: rest) [] _ stm ?_ hrb
          · intro s signal candle s' hs ho
            rw [(open_position_spec self s signal candle s' ho).1,
              (open_position_spec self s signal candle s' ho).2.1]
            exact hs
          · intro s t eq hs
            exact hs
          · simp [totalNetPnl]
        exact foldlM_ok_inv _
          (fun s : BtState => s.current_balance = self.initial_balance + totalNetPnl s.trades)
          (fun s pos s' hs hc => hclose _ s pos "END" s' hs hc)
          stm.open_positions stm st' hPm h

/-- C10 witness: a concrete one-bar no-signal run ends with the balance equal
to the initial balance plus the (empty) trade log's net P&L. -/
theorem balance_equals_initial_plus_net_pnl_witness :
    trivialRunResult.current_balance
      = ({} : Backtester).initial_balance + totalNetPnl trivialRunResult.trades :=
  balance_equals_initial_plus_net_pnl.2.2 {} noSignalStrategy [trivialCandle] 100 none
    trivialRunResult
    (by norm_num +decide [Backtester.run, Backtester.run_bars, Backtester.run_bar,
      Backtester._update_open_positions, Backtester._calculate_equity,
      List.foldlM, exceptBindOk, exceptBindErr, exceptPureEq,
      trivialCandle, trivialRunResult, noSignalStrategy])
